import Mathlib

/-!
Verification development for the ZenQube interactive sandboxed execution
session manager.  The definitions below are a shallow embedding of the
Python source (src/web_dashboard.py, src/cli.py, src/sandbox_test_gui.py):
pure data flow is translated to Lean functions, filesystem canonicalization
(`pathlib.Path.resolve`) is an explicit function parameter, registries are
association lists, and side effects (stdin writes, socket emits, file
deletions) are reified as explicit action lists in the results.
-/

namespace ZenQube

/-- A raw (possibly relative / symlinked) filesystem path, as stored in the
process table, before canonicalization. -/
abbrev RawPath := String

/-- A canonical absolute path, represented as its list of segments
(`[]` is the filesystem root).  `pathlib.Path.resolve` maps a raw path to
this form. -/
abbrev CanonPath := List String

/-- The strict ancestors of a canonical path, mirroring
`pathlib.PurePath.parents`: every proper leading segment list, down to the
root `[]`.  For `/a/b/c` this is `{/, /a, /a/b}`. -/
def ancestors (p : CanonPath) : List CanonPath :=
  (List.range p.length).map (fun k => p.take k)

/-- Embeds `is_within_uploads` (src/web_dashboard.py lines 47-52).
`fs` is the filesystem's `Path.resolve`: `none` models the
`FileNotFoundError` caught by the `except` clause, which makes the check
return `False`.  The Python body is
`UPLOAD_DIR.resolve() in path.resolve().parents or path.resolve() == UPLOAD_DIR.resolve()`. -/
def is_within_uploads (fs : RawPath → Option CanonPath) (uploadDir : RawPath)
    (path : RawPath) : Bool :=
  match fs uploadDir, fs path with
  | some root, some rp => decide (root ∈ ancestors rp) || decide (rp = root)
  | _, _ => false

/-- The per-session entry of the global `running_processes` dict
(src/web_dashboard.py lines 217-225).  `poll` is `Popen.poll()`:
`none` while the child runs, `some code` once it has exited.
`stdinOpen` records whether the stored stdin handle is non-`None`. -/
structure ProcInfo where
  poll : Option Int
  stdinOpen : Bool
  command : List String
  uploaded_file : Option RawPath
  cleanup_paths : List RawPath
deriving DecidableEq, Repr

/-- The global `running_processes` mapping, as an association list with
unique keys (a Python dict). -/
abbrev Registry := List (String × ProcInfo)

/-- Dict lookup `running_processes.get(pid)`. -/
def lookupProc : Registry → String → Option ProcInfo
  | [], _ => none
  | e :: rest, pid => if e.1 = pid then some e.2 else lookupProc rest pid

/-- Key removal, the effect of `running_processes.pop(pid, None)` on the
dict. -/
def removeProc (reg : Registry) (pid : String) : Registry :=
  reg.filter (fun e => e.1 != pid)

/-- Embeds `cleanup_process_resources` (src/web_dashboard.py lines 66-94).
Returns the registry after the `pop` together with the list
`paths_to_remove` that the deletion loop acts on: the uploaded file (if
recorded and inside the uploads root) followed by every recorded cleanup
path that passes `is_within_uploads`.  Paths failing the check are
refused: they never enter `paths_to_remove`. -/
def cleanup_process_resources (fs : RawPath → Option CanonPath)
    (uploadDir : RawPath) (reg : Registry) (pid : String) :
    Registry × List RawPath :=
  match lookupProc reg pid with
  | none => (reg, [])
  | some info =>
    let reg1 := removeProc reg pid
    let uploadedRemovals :=
      match info.uploaded_file with
      | some up => if is_within_uploads fs uploadDir up then [up] else []
      | none => []
    let cleanupRemovals :=
      info.cleanup_paths.filter (fun p => is_within_uploads fs uploadDir p)
    (reg1, uploadedRemovals ++ cleanupRemovals)

lemma is_within_uploads_eq_true_iff (fs : RawPath → Option CanonPath)
    (uploadDir path : RawPath) :
    is_within_uploads fs uploadDir path = true ↔
      ∃ root rp, fs uploadDir = some root ∧ fs path = some rp ∧
        (root ∈ ancestors rp ∨ rp = root) := by
  unfold is_within_uploads
  cases hu : fs uploadDir <;> cases hp : fs path <;> simp

lemma lookupProc_removeProc (reg : Registry) (pid : String) :
    lookupProc (removeProc reg pid) pid = none := by
  induction reg with
  | nil => rfl
  | cons e rest ih =>
    simp only [removeProc, List.filter_cons] at ih ⊢
    by_cases h : e.1 = pid
    · simpa [bne, h] using ih
    · have hb : (e.1 != pid) = true := by simp [bne, h]
      simpa [hb, lookupProc, h] using ih

/-- Claim C1: every path the ArtifactJanitor actually schedules for deletion
canonicalizes (via the filesystem's symlink-and-relative-segment resolution
`fs`) to a path lying under the sandbox-scoped uploads root — either a
strict descendant of the resolved root or the root itself; any candidate
whose resolved form is outside the root never enters the removal list. -/
theorem janitor_deletes_only_under_root (fs : RawPath → Option CanonPath)
    (uploadDir : RawPath) (reg : Registry) (pid : String) (p : RawPath)
    (hp : p ∈ (cleanup_process_resources fs uploadDir reg pid).2) :
    ∃ root rp, fs uploadDir = some root ∧ fs p = some rp ∧
      (root ∈ ancestors rp ∨ rp = root) := by
  rw [← is_within_uploads_eq_true_iff]
  unfold cleanup_process_resources at hp
  cases hfind : lookupProc reg pid with
  | none => rw [hfind] at hp; simp at hp
  | some info =>
    rw [hfind] at hp
    simp only [List.mem_append, List.mem_filter] at hp
    rcases hp with hup | hcl
    · cases hupl : info.uploaded_file with
      | none => rw [hupl] at hup; simp at hup
      | some up =>
        rw [hupl] at hup
        by_cases hok : is_within_uploads fs uploadDir up
        · simp [hok] at hup; subst hup; exact hok
        · simp [hok] at hup
    · exact hcl.2

/-- Witness for C1: with a concrete resolver, uploads root `/srv/uploads`,
and a session whose cleanup set holds one escaping path (`../../etc`,
resolving to `/etc`) and one legitimate build directory, the build
directory is scheduled for deletion and is certified to resolve under the
root. -/
theorem janitor_deletes_only_under_root_witness :
    ∃ root rp,
      (fun q : RawPath =>
        if q = "uploads" then some ["srv", "uploads"]
        else if q = "uploads/build_1" then some ["srv", "uploads", "build_1"]
        else if q = "uploads/../../etc" then some ["etc"]
        else none) "uploads" = some root ∧
      (fun q : RawPath =>
        if q = "uploads" then some ["srv", "uploads"]
        else if q = "uploads/build_1" then some ["srv", "uploads", "build_1"]
        else if q = "uploads/../../etc" then some ["etc"]
        else none) "uploads/build_1" = some rp ∧
      (root ∈ ancestors rp ∨ rp = root) :=
  janitor_deletes_only_under_root
    (fun q : RawPath =>
      if q = "uploads" then some ["srv", "uploads"]
      else if q = "uploads/build_1" then some ["srv", "uploads", "build_1"]
      else if q = "uploads/../../etc" then some ["etc"]
      else none)
    "uploads"
    [("proc_1", ⟨none, true, ["/app/sandbox", "ls"], none,
      ["uploads/../../etc", "uploads/build_1"]⟩)]
    "proc_1" "uploads/build_1" (by decide)

/-- Claim C10: the containment predicate accepts the uploads root itself:
a path whose canonical form equals the resolved uploads root passes
`is_within_uploads`, so the root is an accepted deletion candidate. -/
theorem uploads_root_itself_accepted (fs : RawPath → Option CanonPath)
    (uploadDir path : RawPath) (root : CanonPath)
    (hu : fs uploadDir = some root) (hp : fs path = some root) :
    is_within_uploads fs uploadDir path = true := by
  unfold is_within_uploads
  rw [hu, hp]
  simp

/-- Witness for C10: a concrete resolver under which `uploads` resolves to
`/srv/uploads`; the root path itself passes the containment check. -/
theorem uploads_root_itself_accepted_witness :
    is_within_uploads
      (fun q : RawPath => if q = "uploads" then some ["srv", "uploads"] else none)
      "uploads" "uploads" = true :=
  uploads_root_itself_accepted
    (fun q : RawPath => if q = "uploads" then some ["srv", "uploads"] else none)
    "uploads" "uploads" ["srv", "uploads"] (by decide) (by decide)

/-- Claim C7: resource cleanup plus registry removal is idempotent.  After
one `cleanup_process_resources` call, a second call on the same session id
leaves the registry exactly as the first call left it and schedules no
deletions at all. -/
theorem cleanup_idempotent (fs : RawPath → Option CanonPath)
    (uploadDir : RawPath) (reg : Registry) (pid : String) :
    cleanup_process_resources fs uploadDir
        (cleanup_process_resources fs uploadDir reg pid).1 pid
      = ((cleanup_process_resources fs uploadDir reg pid).1, []) := by
  cases hfind : lookupProc reg pid with
  | none =>
    simp only [cleanup_process_resources, hfind]
  | some info =>
    have h1 : (cleanup_process_resources fs uploadDir reg pid).1
        = removeProc reg pid := by
      simp only [cleanup_process_resources, hfind]
    rw [h1]
    simp only [cleanup_process_resources, lookupProc_removeProc]

/-- The optional resource-limit values of a launch request, as the
`limits` dict built in `analyze_and_run` (src/web_dashboard.py lines
459-464): raw form strings, with `none` when the field was absent or empty
(`request.form.get(...) or None`). -/
structure Limits where
  cpu : Option String
  memory : Option String
  processes : Option String
  file_size : Option String
deriving DecidableEq, Repr

/-- Python truthiness of an optional limit string, as tested by
`if cpu:` etc. in `launch_sandbox_process`: `None` and the empty string
are falsy, every other string is truthy. -/
def truthyLimit : Option String → Bool
  | none => false
  | some s => s != ""

/-- Embeds the command assembly of `launch_sandbox_process`
(src/web_dashboard.py lines 188-204), in the code's sequential-append
order: start from `[sandbox_path]`, conditionally append `--cpu=`,
`--mem=`, `--procs=`, `--fsize=` flags, then extend with the target
command parts. -/
def build_full_cmd (sandbox_path : String) (limits : Limits)
    (command_parts : List String) : List String :=
  let cmd0 := [sandbox_path]
  let cmd1 := if truthyLimit limits.cpu
    then cmd0 ++ ["--cpu=" ++ limits.cpu.getD ""] else cmd0
  let cmd2 := if truthyLimit limits.memory
    then cmd1 ++ ["--mem=" ++ limits.memory.getD ""] else cmd1
  let cmd3 := if truthyLimit limits.processes
    then cmd2 ++ ["--procs=" ++ limits.processes.getD ""] else cmd2
  let cmd4 := if truthyLimit limits.file_size
    then cmd3 ++ ["--fsize=" ++ limits.file_size.getD ""] else cmd3
  cmd4 ++ command_parts

/-- The flag list described by the spec: one flag per present (truthy)
limit, in the stable order cpu, mem, procs, fsize.  Stated from the
spec's words for the refinement comparison in claim C6. -/
def specLimitFlags (limits : Limits) : List String :=
  (if truthyLimit limits.cpu then ["--cpu=" ++ limits.cpu.getD ""] else [])
    ++ (if truthyLimit limits.memory then ["--mem=" ++ limits.memory.getD ""] else [])
    ++ (if truthyLimit limits.processes then ["--procs=" ++ limits.processes.getD ""] else [])
    ++ (if truthyLimit limits.file_size then ["--fsize=" ++ limits.file_size.getD ""] else [])

/-- The spec's shape of the assembled invocation: sandbox binary first,
then the limit flags, then the ordered target command, nothing else. -/
def specAssembledInvocation (sandbox_path : String) (limits : Limits)
    (command_parts : List String) : List String :=
  [sandbox_path] ++ specLimitFlags limits ++ command_parts

/-- Embeds `launch_sandbox_process` (src/web_dashboard.py lines 182-244)
up to its externally visible registry effect.  `sandbox_path` is the
result of `find_sandbox()` (`none` = not found, the only raise in the
function); on success a fresh entry keyed by the new session id is added
to `running_processes`, holding the assembled command, the uploaded-file
path and cleanup paths from the metadata, a live (`poll = none`) process
and an open stdin pipe. -/
def launch_sandbox_process (sandbox_path : Option String) (limits : Limits)
    (command_parts : List String) (uploadedFile : Option RawPath)
    (cleanupPaths : List RawPath) (reg : Registry) (newId : String) :
    Except String (Registry × String) :=
  match sandbox_path with
  | none => .error "Sandbox executable not found"
  | some sp =>
    let full_cmd := build_full_cmd sp limits command_parts
    .ok (reg ++ [(newId, ⟨none, true, full_cmd, uploadedFile, cleanupPaths⟩)], newId)

/-- Claim C6: the invocation assembled by the launcher is exactly the
sandbox binary, then one flag per present limit in the stable order
cpu, mem, procs, fsize, then the target command, with nothing else
interleaved — the code's sequential construction equals the spec's
shape. -/
theorem assembled_invocation_shape (sandbox_path : String) (limits : Limits)
    (command_parts : List String) :
    build_full_cmd sandbox_path limits command_parts
      = specAssembledInvocation sandbox_path limits command_parts := by
  rcases limits with ⟨c, m, p, f⟩
  simp only [build_full_cmd, specAssembledInvocation, specLimitFlags]
  by_cases hc : truthyLimit c <;> by_cases hm : truthyLimit m <;>
    by_cases hp : truthyLimit p <;> by_cases hf : truthyLimit f <;>
    simp [hc, hm, hp, hf]

/-- Counterexample to claim C2 as stated: the launcher performs no
validation of limit values.  With the non-positive cpu limit `-5` and the
non-numeric memory limit `abc`, the launch does not fail validation: it
succeeds, spawns the child with the flags `--cpu=-5` and `--mem=abc`
verbatim, and creates a session registry entry. -/
theorem limits_not_validated_counterexample :
    launch_sandbox_process (some "/app/sandbox")
        ⟨some "-5", some "abc", none, none⟩ ["/bin/ls"] none [] [] "proc_1"
      = .ok ([("proc_1",
          ⟨none, true, ["/app/sandbox", "--cpu=-5", "--mem=abc", "/bin/ls"],
            none, []⟩)], "proc_1") := by
  rfl

/-- Claim C2 amended: limit values are not validated at launch.  Whenever
the sandbox binary is found, the launch succeeds for every limit
assignment — non-positive or non-numeric values included — registering a
session whose command embeds each present (non-empty) limit value
verbatim as its flag; rejection of bad limit values is left entirely to
the external sandbox binary. -/
theorem launch_accepts_any_limit_values (sandbox_path : String)
    (limits : Limits) (command_parts : List String)
    (uploadedFile : Option RawPath) (cleanupPaths : List RawPath)
    (reg : Registry) (newId : String) :
    ∃ info : ProcInfo,
      launch_sandbox_process (some sandbox_path) limits command_parts
          uploadedFile cleanupPaths reg newId
        = .ok (reg ++ [(newId, info)], newId) ∧
      info.command = build_full_cmd sandbox_path limits command_parts ∧
      (∀ v, limits.cpu = some v → v ≠ "" → ("--cpu=" ++ v) ∈ info.command) ∧
      (∀ v, limits.memory = some v → v ≠ "" → ("--mem=" ++ v) ∈ info.command) ∧
      (∀ v, limits.processes = some v → v ≠ "" → ("--procs=" ++ v) ∈ info.command) ∧
      (∀ v, limits.file_size = some v → v ≠ "" → ("--fsize=" ++ v) ∈ info.command) := by
  rcases limits with ⟨c, m, p, f⟩
  refine ⟨_, rfl, rfl, ?_, ?_, ?_, ?_⟩ <;>
    intro v hv hne <;>
    simp only at hv <;> subst hv <;>
    simp only [build_full_cmd] <;>
    split_ifs <;>
    simp_all [truthyLimit, bne_iff_ne]

/-- Witness for C2's amended theorem: the launch with cpu limit `7` on a
concrete command registers a session whose command carries `--cpu=7`. -/
theorem launch_accepts_any_limit_values_witness :
    ∃ info : ProcInfo,
      launch_sandbox_process (some "/app/sandbox")
          ⟨some "7", none, none, none⟩ ["python3", "hello.py"]
          none [] [] "proc_2"
        = .ok ([("proc_2", info)], "proc_2") ∧
      info.command
        = build_full_cmd "/app/sandbox" ⟨some "7", none, none, none⟩
            ["python3", "hello.py"] ∧
      (∀ v, (⟨some "7", none, none, none⟩ : Limits).cpu = some v → v ≠ "" →
        ("--cpu=" ++ v) ∈ info.command) ∧
      (∀ v, (⟨some "7", none, none, none⟩ : Limits).memory = some v → v ≠ "" →
        ("--mem=" ++ v) ∈ info.command) ∧
      (∀ v, (⟨some "7", none, none, none⟩ : Limits).processes = some v → v ≠ "" →
        ("--procs=" ++ v) ∈ info.command) ∧
      (∀ v, (⟨some "7", none, none, none⟩ : Limits).file_size = some v → v ≠ "" →
        ("--fsize=" ++ v) ∈ info.command) :=
  launch_accepts_any_limit_values "/app/sandbox" ⟨some "7", none, none, none⟩
    ["python3", "hello.py"] none [] [] "proc_2"

/-- The externally visible actions of the output pump: socket emissions
and the final janitor call of `stream_process_output`. -/
inductive WebEvent where
  | outputLine (processId line : String)
  | processComplete (processId : String) (returnCode : Int) (transcript : String)
  | cleanupCall (processId : String)
deriving DecidableEq, Repr

/-- Python's `line.rstrip(chr(10))`: drop every trailing newline
character. -/
def rstripNewlines (s : String) : String :=
  String.mk ((s.data.reverse.dropWhile (fun c => c = '\n')).reverse)

/-- The `for line in proc.stdout` loop of `stream_process_output`
(src/web_dashboard.py lines 328-333): emit each line (newline-stripped)
as an `output` event and accumulate the raw line into `output_lines`. -/
def streamLoop (processId : String) : List String → List WebEvent × List String
  | [] => ([], [])
  | line :: rest =>
    let tail := streamLoop processId rest
    (WebEvent.outputLine processId (rstripNewlines line) :: tail.1,
      line :: tail.2)

/-- Embeds `stream_process_output` (src/web_dashboard.py lines 324-352)
as the full action trace for a child that produced `lines` on its merged
stdout+stderr pipe and exited with `returnCode` (the value of
`proc.wait()`): the per-line output events, then the single
`process_complete` emission carrying the exit code and the
separator-free join of all raw lines, then the single
`cleanup_process_resources` call. -/
def stream_process_output (processId : String) (lines : List String)
    (returnCode : Int) : List WebEvent :=
  let pumped := streamLoop processId lines
  pumped.1 ++
    [WebEvent.processComplete processId returnCode (String.join pumped.2),
     WebEvent.cleanupCall processId]

/-- Recognizes completion events. -/
def isCompleteEvent : WebEvent → Bool
  | WebEvent.processComplete _ _ _ => true
  | _ => false

/-- Recognizes janitor invocations. -/
def isCleanupEvent : WebEvent → Bool
  | WebEvent.cleanupCall _ => true
  | _ => false

lemma streamLoop_fst (processId : String) (lines : List String) :
    (streamLoop processId lines).1
      = lines.map (fun l => WebEvent.outputLine processId (rstripNewlines l)) := by
  induction lines with
  | nil => rfl
  | cons l rest ih => simp [streamLoop, ih]

lemma streamLoop_snd (processId : String) (lines : List String) :
    (streamLoop processId lines).2 = lines := by
  induction lines with
  | nil => rfl
  | cons l rest ih => simp [streamLoop, ih]

/-- Claim C3: for a session whose child exits naturally after producing
`lines`, the pump's trace contains exactly one completion event, carrying
the child's exit code verbatim and the full concatenated transcript;
exactly one janitor call occurs, and it comes immediately after the
completion event (both follow all per-line output events). -/
theorem completion_event_exactly_once (processId : String)
    (lines : List String) (returnCode : Int) :
    (stream_process_output processId lines returnCode).filter isCompleteEvent
        = [WebEvent.processComplete processId returnCode (String.join lines)] ∧
    (stream_process_output processId lines returnCode).filter isCleanupEvent
        = [WebEvent.cleanupCall processId] ∧
    (stream_process_output processId lines returnCode).drop lines.length
        = [WebEvent.processComplete processId returnCode (String.join lines),
           WebEvent.cleanupCall processId] := by
  have hmapC : (lines.map
      (fun l => WebEvent.outputLine processId (rstripNewlines l))).filter
        isCompleteEvent = [] := by
    induction lines with
    | nil => rfl
    | cons l rest ih => simp [isCompleteEvent, ih]
  have hmapK : (lines.map
      (fun l => WebEvent.outputLine processId (rstripNewlines l))).filter
        isCleanupEvent = [] := by
    induction lines with
    | nil => rfl
    | cons l rest ih => simp [isCleanupEvent, ih]
  simp only [stream_process_output, streamLoop_fst, streamLoop_snd]
  refine ⟨?_, ?_, ?_⟩
  · rw [List.filter_append, hmapC]
    simp [isCompleteEvent, isCleanupEvent]
  · rw [List.filter_append, hmapK]
    simp [isCompleteEvent, isCleanupEvent]
  · exact List.drop_left' (by simp)

/-- A side effect on the child's stdin pipe performed by the input
relay. -/
inductive StdinOp where
  | write (payload : String)
  | flush
deriving DecidableEq, Repr

/-- Embeds the `send_input` socket handler `handle_send_input`
(src/web_dashboard.py lines 519-544).  Arguments mirror the fields read
from the socket payload: `process_id` (falsy when `none` or empty),
`text` (`none` models an explicit JSON null, which the handler rejects),
`append_newline` (default true).  The result pairs the — never mutated —
registry with the ordered stdin operations performed; every early
`return` yields the empty operation list (the silent no-op). -/
def handle_send_input (reg : Registry) (process_id : Option String)
    (text : Option String) (append_newline : Bool) :
    Registry × List StdinOp :=
  match process_id with
  | none => (reg, [])
  | some pid =>
    if pid = "" then (reg, [])
    else
      match lookupProc reg pid with
      | none => (reg, [])
      | some info =>
        match text with
        | none => (reg, [])
        | some t =>
          if info.poll.isSome || !info.stdinOpen then (reg, [])
          else
            let payload :=
              if append_newline && !(t.endsWith "\n") then t ++ "\n" else t
            (reg, [StdinOp.write payload, StdinOp.flush])

/-- Claim C4: `sendInput` on an unknown session id, or on a session whose
child has already exited or whose stdin handle is gone, is a silent
no-op: the registry is unchanged and no stdin operation (no write, no
flush) is performed. -/
theorem sendInput_unknown_or_exited_noop (reg : Registry) (pid : String)
    (text : Option String) (append_newline : Bool)
    (h : lookupProc reg pid = none ∨
      ∃ info, lookupProc reg pid = some info ∧
        (info.poll.isSome = true ∨ info.stdinOpen = false)) :
    handle_send_input reg (some pid) text append_newline = (reg, []) := by
  unfold handle_send_input
  by_cases hpid : pid = ""
  · simp [hpid]
  · rcases h with hnone | ⟨info, hfind, hdead⟩
    · simp [hpid, hnone]
    · cases text with
      | none => simp [hpid, hfind]
      | some t =>
        rcases hdead with hexited | hclosed
        · simp [hpid, hfind, hexited]
        · simp [hpid, hfind, hclosed]

/-- Witness for C4: on a registry holding one terminated session
(`poll = some 0`), delivering input to it performs nothing, and likewise
the id `ghost` unknown to the registry is ignored. -/
theorem sendInput_unknown_or_exited_noop_witness :
    handle_send_input
        [("proc_1", ⟨some 0, true, ["/app/sandbox", "ls"], none, []⟩)]
        (some "proc_1") (some "hello") true
      = ([("proc_1", ⟨some 0, true, ["/app/sandbox", "ls"], none, []⟩)], []) :=
  sendInput_unknown_or_exited_noop
    [("proc_1", ⟨some 0, true, ["/app/sandbox", "ls"], none, []⟩)]
    "proc_1" (some "hello") true
    (Or.inr ⟨⟨some 0, true, ["/app/sandbox", "ls"], none, []⟩, by decide,
      Or.inl (by decide)⟩)

/-- Claim C5: delivering text `t` to a live session writes exactly
`t ++ chr(10)` when the append-newline flag is set and `t` does not already
end in a newline, and exactly `t` otherwise; the write is immediately
followed by a flush, and nothing else touches the pipe or the registry. -/
theorem sendInput_writes_and_flushes (reg : Registry) (pid : String)
    (info : ProcInfo) (t : String) (append_newline : Bool)
    (hpid : pid ≠ "") (hfind : lookupProc reg pid = some info)
    (hlive : info.poll = none) (hstdin : info.stdinOpen = true) :
    handle_send_input reg (some pid) (some t) append_newline
      = (reg,
          [StdinOp.write
            (if append_newline && !(t.endsWith "\n") then t ++ "\n" else t),
           StdinOp.flush]) := by
  unfold handle_send_input
  simp [hpid, hfind, hlive, hstdin]

/-- Witness for C5: sending `Ada` with the append-newline flag to a live
session writes `Ada` plus a newline and then flushes. -/
theorem sendInput_writes_and_flushes_witness :
    handle_send_input
        [("proc_9", ⟨none, true, ["/app/sandbox", "python3"], none, []⟩)]
        (some "proc_9") (some "Ada") true
      = ([("proc_9", ⟨none, true, ["/app/sandbox", "python3"], none, []⟩)],
          [StdinOp.write
            (if true && !(String.endsWith "Ada" "\n") then "Ada" ++ "\n" else "Ada"),
           StdinOp.flush]) :=
  sendInput_writes_and_flushes
    [("proc_9", ⟨none, true, ["/app/sandbox", "python3"], none, []⟩)]
    "proc_9" ⟨none, true, ["/app/sandbox", "python3"], none, []⟩ "Ada" true
    (by decide) (by decide) rfl rfl

/-- The dashboard's externally visible state for the launch flow: the
`running_processes` registry and the set of paths currently existing on
disk under consideration. -/
structure DashState where
  registry : Registry
  files : List RawPath
deriving DecidableEq, Repr

/-- Filesystem creation (`mkdir` / compiler writing its output): adds the
path if absent. -/
def addFile (files : List RawPath) (p : RawPath) : List RawPath :=
  if p ∈ files then files else files ++ [p]

/-- `Path.unlink(missing_ok=True)`: removes the path. -/
def removeFile (files : List RawPath) (p : RawPath) : List RawPath :=
  files.filter (fun q => q != p)

/-- Embeds the `.c` branch of `build_execution_command`
(src/web_dashboard.py lines 125-138): create the per-request build
directory, run `gcc`; on a nonzero compiler exit raise
(`C compilation failed`), leaving the build directory behind; on success
the compiled output exists and the command is the output path with the
build directory as the cleanup path. -/
def build_execution_command_c (files : List RawPath)
    (buildDir outputPath : RawPath) (compileExit : Int) :
    List RawPath × Except String (List String × List RawPath) :=
  let files1 := addFile files buildDir
  if compileExit ≠ 0 then
    (files1, .error "C compilation failed")
  else
    (addFile files1 outputPath, .ok ([outputPath], [buildDir]))

/-- Embeds the launch path of `analyze_and_run` (src/web_dashboard.py
lines 466-490) for a `.c` upload: build the execution command; on any
raise, take the `except` branch — when the file was an upload and still
exists, unlink it — and return the error without touching the registry;
on success launch the sandbox process, which registers the session. -/
def analyze_and_run_cfile (st : DashState) (uploaded : Bool)
    (savedPath buildDir outputPath : RawPath) (compileExit : Int)
    (limits : Limits) (sandbox : Option String) (newId : String) :
    DashState × Except String String :=
  let bres := build_execution_command_c st.files buildDir outputPath compileExit
  match bres.2 with
  | .error msg =>
    let files2 := if uploaded && decide (savedPath ∈ bres.1)
      then removeFile bres.1 savedPath else bres.1
    (⟨st.registry, files2⟩, .error msg)
  | .ok (commandParts, cleanupPaths) =>
    match launch_sandbox_process sandbox limits commandParts
        (if uploaded then some savedPath else none) cleanupPaths
        st.registry newId with
    | .error e =>
      let files2 := if uploaded && decide (savedPath ∈ bres.1)
        then removeFile bres.1 savedPath else bres.1
      (⟨st.registry, files2⟩, .error e)
    | .ok (reg1, pid) => (⟨reg1, bres.1⟩, .ok pid)

lemma mem_removeFile_self (files : List RawPath) (p : RawPath) :
    p ∉ removeFile files p := by
  intro hmem
  rcases List.mem_filter.mp hmem with ⟨-, hq⟩
  simp [bne] at hq

/-- Claim C8: launching an uploaded C source whose compilation fails
surfaces the failure as a synchronous pre-launch error; no registry entry
is created (the launcher is never reached, so no session or process id is
allocated) and the uploaded source file is no longer on disk
afterwards. -/
theorem c_compile_failure_leaves_clean_state (st : DashState)
    (savedPath buildDir outputPath : RawPath) (compileExit : Int)
    (limits : Limits) (sandbox : Option String) (newId : String)
    (hfail : compileExit ≠ 0) :
    (∃ msg, (analyze_and_run_cfile st true savedPath buildDir outputPath
        compileExit limits sandbox newId).2 = .error msg) ∧
    (analyze_and_run_cfile st true savedPath buildDir outputPath
        compileExit limits sandbox newId).1.registry = st.registry ∧
    savedPath ∉ (analyze_and_run_cfile st true savedPath buildDir outputPath
        compileExit limits sandbox newId).1.files := by
  have hb : build_execution_command_c st.files buildDir outputPath compileExit
      = (addFile st.files buildDir, .error "C compilation failed") := by
    simp [build_execution_command_c, hfail]
  unfold analyze_and_run_cfile
  rw [hb]
  by_cases hmem : savedPath ∈ addFile st.files buildDir
  · refine ⟨⟨"C compilation failed", rfl⟩, rfl, ?_⟩
    simpa [hmem] using mem_removeFile_self (addFile st.files buildDir) savedPath
  · exact ⟨⟨"C compilation failed", rfl⟩, rfl, by simp [hmem]⟩

/-- Witness for C8: a concrete upload `uploads/prog_1.c` on disk, with the
compiler exiting 1 on a syntax error, yields an error response, an
unchanged (empty) registry, and the upload gone from disk. -/
theorem c_compile_failure_leaves_clean_state_witness :
    (∃ msg, (analyze_and_run_cfile ⟨[], ["uploads/prog_1.c"]⟩ true
        "uploads/prog_1.c" "uploads/build_1" "uploads/build_1/prog_1" 1
        ⟨none, none, none, none⟩ (some "/app/sandbox") "proc_3").2
      = .error msg) ∧
    (analyze_and_run_cfile ⟨[], ["uploads/prog_1.c"]⟩ true
        "uploads/prog_1.c" "uploads/build_1" "uploads/build_1/prog_1" 1
        ⟨none, none, none, none⟩ (some "/app/sandbox") "proc_3").1.registry
      = DashState.registry ⟨[], ["uploads/prog_1.c"]⟩ ∧
    "uploads/prog_1.c" ∉ (analyze_and_run_cfile ⟨[], ["uploads/prog_1.c"]⟩ true
        "uploads/prog_1.c" "uploads/build_1" "uploads/build_1/prog_1" 1
        ⟨none, none, none, none⟩ (some "/app/sandbox") "proc_3").1.files :=
  c_compile_failure_leaves_clean_state ⟨[], ["uploads/prog_1.c"]⟩
    "uploads/prog_1.c" "uploads/build_1" "uploads/build_1/prog_1" 1
    ⟨none, none, none, none⟩ (some "/app/sandbox") "proc_3" (by decide)

/-- The state of the GUI terminal widget relevant to the input-wait
detector (src/sandbox_test_gui.py): the transcript held by the Tk text
widget (as characters, without the implicit trailing newline Tk keeps),
the `waiting_for_input` flag, the `input_start_marker` (as a character
index into the transcript, `none` when cleared), the `is_running` flag and
the `current_input_line` buffer. -/
structure GuiState where
  transcript : List Char
  waiting_for_input : Bool
  input_start_marker : Option Nat
  is_running : Bool
  current_input_line : List Char
deriving DecidableEq, Repr

/-- Embeds `SandboxTestGUI.show_prompt` (src/sandbox_test_gui.py lines
703-713): only when the process is running and no prompt is already
shown, insert the two prompt characters at the end, set the marker to the
index just after them (`END - 1c`), raise `waiting_for_input` and clear
the input line. -/
def show_prompt (g : GuiState) : GuiState :=
  if !g.waiting_for_input && g.is_running then
    let t := g.transcript ++ ['$', ' ']
    { transcript := t
      waiting_for_input := true
      input_start_marker := some t.length
      is_running := g.is_running
      current_input_line := [] }
  else g

/-- Embeds `SandboxTestGUI.log_output` (src/sandbox_test_gui.py lines
1040-1062): when a prompt is showing (`waiting_for_input` set and marker
present), first delete the two characters before the marker — the prompt —
and clear marker and flag; then append the new text at the end. -/
def log_output (g : GuiState) (text : List Char) : GuiState :=
  let g1 :=
    if g.waiting_for_input then
      match g.input_start_marker with
      | some m =>
        { g with
            transcript := g.transcript.take (m - 2) ++ g.transcript.drop m
            input_start_marker := none
            waiting_for_input := false }
      | none => g
    else g
  { g1 with transcript := g1.transcript ++ text }

/-- Claim C9: prompt retraction is idempotent and exact.  When no prompt
is shown (the session is not AWAITING_INPUT), arriving output deletes
nothing — the new state is the old one with the text appended, all flags
untouched.  When a prompt was just shown, arriving output removes exactly
the prompt and then appends the text, so the transcript is the pre-prompt
transcript followed by the output. -/
theorem prompt_retraction_idempotent (g : GuiState) (text : List Char)
    (hw : g.waiting_for_input = false) (hr : g.is_running = true) :
    log_output g text = { g with transcript := g.transcript ++ text } ∧
    (log_output (show_prompt g) text).transcript
      = g.transcript ++ text := by
  constructor
  · simp [log_output, hw]
  · have hlen : (g.transcript ++ ['$', ' ']).length
        = g.transcript.length + 2 := by simp
    simp only [show_prompt, log_output, hw, hr, Bool.not_false,
      Bool.and_self, if_true]
    simp only [hlen]
    rw [Nat.add_sub_cancel, List.take_left' rfl,
      show g.transcript.length + 2 = (g.transcript ++ ['$', ' ']).length by
        simp,
      List.drop_length]
    simp

/-- Witness for C9: a concrete widget state with transcript `ok`, not
awaiting input, running; output `x` appends without deleting, and output
arriving right after a shown prompt yields transcript `okx` with the
prompt gone. -/
theorem prompt_retraction_idempotent_witness :
    log_output ⟨['o', 'k'], false, none, true, []⟩ ['x']
      = { (⟨['o', 'k'], false, none, true, []⟩ : GuiState) with
          transcript := ['o', 'k'] ++ ['x'] } ∧
    (log_output (show_prompt ⟨['o', 'k'], false, none, true, []⟩)
        ['x']).transcript
      = ['o', 'k'] ++ ['x'] :=
  prompt_retraction_idempotent ⟨['o', 'k'], false, none, true, []⟩ ['x']
    rfl rfl

end ZenQube
